import Mathlib

/-!
# Verification of the heat-transfer dashboard's prediction engine

Shallow embedding of the computational core of `src/app.py`
(PRAJITHARAMESH/heat_transfer_app): the nearest-row 1-NN predictor, the
range validator, the efficiency ratio, the two suggestion ladders, the
live-telemetry fetch, and the results ("Calculate") block.

Numeric values are modelled as rationals (`ℚ`); the Python code performs
real arithmetic on floats and none of the verified properties depend on
rounding. Fallible code (pandas `idxmin` on an empty frame, Python name
lookup, `float()` parsing) is modelled with `Except`/`Option`.
-/

namespace HeatTransferApp

/-- One row of `heat_transfer_dataset.csv` as loaded into `df`
(columns per the CSV header). -/
structure Row where
  ThermalCond : ℚ
  BlockSize : ℚ
  SourceTemp : ℚ
  AmbientTemp : ℚ
  AvgTemp : ℚ
  MaxTemp : ℚ
  CenterTemp : ℚ
deriving DecidableEq, Repr

/-- The squared-distance expression of `app.py` line 128, for one row:
`(df["ThermalCond"]-tc)**2 + (df["BlockSize"]-bs)**2 +
 (df["SourceTemp"]-stemp)**2 + (df["AmbientTemp"]-atemp)**2`. -/
def d2row (tc bs stemp atemp : ℚ) (r : Row) : ℚ :=
  (r.ThermalCond - tc)^2 + (r.BlockSize - bs)^2 +
    (r.SourceTemp - stemp)^2 + (r.AmbientTemp - atemp)^2

/-- Pandas `Series.idxmin`: index of the first occurrence of the minimum
value, together with that minimum value; `none` on an empty series
(where pandas raises `ValueError`). -/
def idxminAux : List ℚ → Option (ℕ × ℚ)
  | [] => none
  | x :: xs =>
    match idxminAux xs with
    | none => some (0, x)
    | some (j, v) => if x ≤ v then some (0, x) else some (j + 1, v)

/-- Function `nearest_row_predict` (`app.py` lines 127-130): computes the squared
Euclidean distance column over the dataset, takes `idxmin`, and returns
the winning row's `(AvgTemp, MaxTemp, CenterTemp)`. On an empty dataset
`idxmin` raises pandas' ValueError, modelled as the error branch. -/
def nearest_row_predict (df : List Row) (tc bs stemp atemp : ℚ) :
    Except String (ℚ × ℚ × ℚ) :=
  let d2 := df.map (d2row tc bs stemp atemp)
  match idxminAux d2 with
  | none => .error "ValueError: attempt to get argmin of an empty sequence"
  | some (i, _) =>
    match df.get? i with
    | some row => .ok (row.AvgTemp, row.MaxTemp, row.CenterTemp)
    | none => .error "KeyError"

/-- Function `efficiency` (`app.py` lines 109-113). -/
def efficiency (max_temp avg_temp ambient_temp : ℚ) : ℚ :=
  let denom := max_temp - ambient_temp
  if denom = 0 then 0
  else (max_temp - avg_temp) / denom

/-- Function `coolant_suggestion` (`app.py` lines 115-119). -/
def coolant_suggestion (avg_temp : ℚ) : String :=
  if avg_temp > 80 then "Liquid Nitrogen"
  else if avg_temp > 60 then "Water Cooling"
  else if avg_temp > 40 then "Oil Cooling"
  else "Air Cooling"

/-- Function `material_suggestion` (`app.py` lines 121-125). -/
def material_suggestion (tc : ℚ) : String :=
  if tc > 300 then "Copper"
  else if tc > 150 then "Aluminium"
  else if tc > 80 then "Steel"
  else "Ceramic"

/-- The dict `LIMITS` (`app.py` lines 54-59), a dict iterated in insertion order;
the bounds are Python ints. -/
def LIMITS : List (String × ℤ × ℤ) :=
  [("ThermalCond", 50, 500),
   ("BlockSize", 5, 50),
   ("SourceTemp", 30, 150),
   ("AmbientTemp", 0, 50)]

/-- The `values` dict built at `app.py` line 204 and passed to
`check_limits`. -/
def values (tc bs stemp atemp : ℚ) : List (String × ℚ) :=
  [("ThermalCond", tc), ("BlockSize", bs), ("SourceTemp", stemp),
   ("AmbientTemp", atemp)]

/-- Function `check_limits` (`app.py` lines 101-107): loops over `LIMITS.items()`
in insertion order, reads `vals[k]`, and appends
`f"{k} should be between {lo} and {hi}"` when `not (lo <= v <= hi)`.
The dict access `vals[k]` always succeeds for the keys of `LIMITS`
(the `values` dict has exactly those keys); the `getD 0` default is
unreachable in every call the script makes. -/
def check_limits (vals : List (String × ℚ)) : List String :=
  LIMITS.foldl
    (fun issues kv =>
      let k := kv.1
      let lo := kv.2.1
      let hi := kv.2.2
      let v := (vals.lookup k).getD 0
      if ¬((lo : ℚ) ≤ v ∧ v ≤ (hi : ℚ)) then
        issues ++ [k ++ " should be between " ++ toString lo ++ " and " ++ toString hi]
      else issues)
    []

/-- Spec-side formulation of `Validate` (§4.1 of the spec): one fixed
message per field strictly outside its inclusive range, in the fixed
enumeration order ThermalCond, BlockSize, SourceTemp, AmbientTemp.
Used only to be compared against `check_limits`. -/
def validateSpec (tc bs stemp atemp : ℚ) : List String :=
  (if tc < 50 ∨ 500 < tc then ["ThermalCond should be between 50 and 500"] else []) ++
  (if bs < 5 ∨ 50 < bs then ["BlockSize should be between 5 and 50"] else []) ++
  (if stemp < 30 ∨ 150 < stemp then ["SourceTemp should be between 30 and 150"] else []) ++
  (if atemp < 0 ∨ 50 < atemp then ["AmbientTemp should be between 0 and 50"] else [])

/-- A JSON field value as seen by the script after `response.json()`:
either a string or a number. A JSON `null` and an absent key both make
Python's `dict.get` return `None`, modelled by `Option` around this. -/
inductive JsonVal where
  | str (s : String)
  | num (q : ℚ)
deriving DecidableEq, Repr

/-- The pieces of the ThingSpeak `last.json` response the script reads:
`data.get('field1')` and `data.get('field2')`. -/
structure Feed where
  field1 : Option JsonVal
  field2 : Option JsonVal
deriving DecidableEq, Repr

/-- Python truthiness of `data.get(...)`: `None`, the empty string and
the number `0` are falsy; every other string or number is truthy. -/
def truthy : Option JsonVal → Bool
  | none => false
  | some (.str s) => !s.isEmpty
  | some (.num q) => q ≠ 0

/-- Digits-to-number accumulator for `parseDecimal` (caller has checked
every character is a digit). -/
def natOfDigits (cs : List Char) : ℕ :=
  cs.foldl (fun n c => n * 10 + (c.toNat - 48)) 0

/-- Split a character list at every dot, like `str.split(".")`. -/
def splitOnDot : List Char → List (List Char)
  | [] => [[]]
  | c :: rest =>
    let parts := splitOnDot rest
    if c = '.' then [] :: parts
    else
      match parts with
      | p :: ps => (c :: p) :: ps
      | [] => [[c]]

/-- Parse a plain decimal literal: optional sign, digits, at most one
dot, at least one digit. Returns (negative?, integer digits value,
fraction digits value, number of fraction digits). -/
def parseDecimal (s : String) : Option (Bool × ℕ × ℕ × ℕ) :=
  let signBody : Bool × List Char :=
    match s.data with
    | '-' :: r => (true, r)
    | '+' :: r => (false, r)
    | r => (false, r)
  let neg := signBody.1
  let body := signBody.2
  match splitOnDot body with
  | [intPart] =>
    if decide (intPart.length > 0) && intPart.all Char.isDigit then
      some (neg, natOfDigits intPart, 0, 0)
    else none
  | [intPart, fracPart] =>
    if decide (intPart.length + fracPart.length > 0) && intPart.all Char.isDigit
        && fracPart.all Char.isDigit then
      some (neg, natOfDigits intPart, natOfDigits fracPart, fracPart.length)
    else none
  | _ => none

/-- Python `float()` applied to a plain decimal literal (optional sign,
digits, at most one dot), the only shapes the telemetry endpoint emits;
`none` models `float()` raising `ValueError` on anything else. -/
def floatOfString (s : String) : Option ℚ :=
  (parseDecimal s).map fun p =>
    (if p.1 then (-1 : ℚ) else 1) * ((p.2.1 : ℚ) + (p.2.2.1 : ℚ) / (10 ^ p.2.2.2))

/-- Python `float()` on a JSON field value: numbers pass through,
strings are parsed. -/
def pyFloat : JsonVal → Option ℚ
  | .num q => some q
  | .str s => floatOfString s

/-- Function `fetch_live_data` (`app.py` lines 69-98), as a function of the HTTP
outcome: a `RequestException` (error branch) yields `(None, None)`;
otherwise the script reads `field1`/`field2`, and only when BOTH are
truthy converts them with `float()` — a `float()` failure is caught by
the blanket `except Exception` and also yields `(None, None)`. -/
def fetch_live_data (resp : Except String Feed) : Option ℚ × Option ℚ :=
  match resp with
  | .error _ => (none, none)
  | .ok data =>
    let t_ambient := data.field1
    let t_source := data.field2
    if truthy t_ambient && truthy t_source then
      match t_ambient, t_source with
      | some a, some s =>
        match pyFloat a, pyFloat s with
        | some fa, some fs => (some fa, some fs)
        | _, _ => (none, none)
      | _, _ => (none, none)
    else (none, none)

/-- The effective ambient temperature (`app.py` lines 164-176): a live
reading is clamped as `max(atemp_min, min(atemp_max, live_ambient))`
with `LIMITS["AmbientTemp"] = (0, 50)`; otherwise the manual slider
value is used. -/
def effectiveAtemp (live_ambient : Option ℚ) (slider : ℚ) : ℚ :=
  match live_ambient with
  | some a => max 0 (min 50 a)
  | none => slider

/-- The effective source temperature (`app.py` lines 184-196): a live
reading is clamped as `max(stemp_min, min(stemp_max, live_source))`
with `LIMITS["SourceTemp"] = (30, 150)`; otherwise the manual slider
value is used. -/
def effectiveStemp (live_source : Option ℚ) (slider : ℚ) : ℚ :=
  match live_source with
  | some s => max 30 (min 150 s)
  | none => slider

/-- What the results block displays on success. -/
structure CalcDisplay where
  avg_t : ℚ
  max_t : ℚ
  ctr_t : ℚ
  eff : ℚ
  cool : String
  mat : String
deriving DecidableEq, Repr

/-- Python name resolution for the script body: look a name up among the
bound variables; an unbound name raises `NameError`. -/
def lookupName (env : List (String × ℚ)) (n : String) : Except String ℚ :=
  match env.lookup n with
  | some v => .ok v
  | none => .error ("NameError: name " ++ n ++ " is not defined")

/-- The Calculate results block (`app.py` lines 224-229), entered when
`run` is pressed and `issues` is empty. Variable reads are routed
through `lookupName` over the names the script has actually bound:
line 226 binds `avg_t, max_t, ctr_t`, line 227 binds `eff`; line 228
then evaluates `coolant_suggestion(avg_temp)` and line 229
`material_suggestion(tc)`. -/
def resultsBlock (df : List Row) (tc bs stemp atemp : ℚ) :
    Except String CalcDisplay := do
  let (avg_t, max_t, ctr_t) ← nearest_row_predict df tc bs stemp atemp
  let eff := efficiency max_t avg_t atemp
  let env := [("tc", tc), ("bs", bs), ("stemp", stemp), ("atemp", atemp),
    ("avg_t", avg_t), ("max_t", max_t), ("ctr_t", ctr_t), ("eff", eff)]
  let coolArg ← lookupName env "avg_temp"
  let cool := coolant_suggestion coolArg
  let matArg ← lookupName env "tc"
  let mat := material_suggestion matArg
  .ok ⟨avg_t, max_t, ctr_t, eff, cool, mat⟩

/-! ## Helper lemmas -/

theorem idxminAux_nil : idxminAux [] = none := rfl

theorem idxminAux_cons (x : ℚ) (xs : List ℚ) :
    idxminAux (x :: xs) =
      match idxminAux xs with
      | none => some (0, x)
      | some (j, v) => if x ≤ v then some (0, x) else some (j + 1, v) := rfl

theorem idxminAux_eq_none_iff (l : List ℚ) : idxminAux l = none ↔ l = [] := by
  cases l with
  | nil => simp [idxminAux_nil]
  | cons x xs =>
    rw [idxminAux_cons]
    cases hx : idxminAux xs with
    | none => simp
    | some p =>
      obtain ⟨j, v⟩ := p
      by_cases hc : x ≤ v <;> simp [hc]

theorem idxminAux_spec (l : List ℚ) : ∀ (i : ℕ) (v : ℚ), idxminAux l = some (i, v) →
    l.get? i = some v ∧ (∀ j w, l.get? j = some w → v ≤ w) ∧
      (∀ j w, j < i → l.get? j = some w → v < w) := by
  induction l with
  | nil =>
    intro i v h
    simp [idxminAux_nil] at h
  | cons x xs ih =>
    intro i v h
    rw [idxminAux_cons] at h
    cases hx : idxminAux xs with
    | none =>
      rw [hx] at h
      simp only [Option.some.injEq, Prod.mk.injEq] at h
      obtain ⟨hi, hv⟩ := h
      have hxs : xs = [] := (idxminAux_eq_none_iff xs).mp hx
      subst hxs
      refine ⟨by rw [← hi, ← hv]; rfl, ?_, ?_⟩
      · intro j w hj
        rw [← hv]
        cases j with
        | zero =>
          simp only [List.get?_cons_zero, Option.some.injEq] at hj
          exact le_of_eq hj
        | succ n => simp at hj
      · intro j w hjlt hjw
        rw [← hi] at hjlt
        exact absurd hjlt (Nat.not_lt_zero j)
    | some p =>
      obtain ⟨j₀, v₀⟩ := p
      rw [hx] at h
      obtain ⟨hg, hle, hlt⟩ := ih j₀ v₀ hx
      have h2 : (if x ≤ v₀ then some (0, x) else some (j₀ + 1, v₀) : Option (ℕ × ℚ)) =
          some (i, v) := h
      by_cases hc : x ≤ v₀
      · rw [if_pos hc] at h2
        simp only [Option.some.injEq, Prod.mk.injEq] at h2
        obtain ⟨hi, hv⟩ := h2
        refine ⟨by rw [← hi, ← hv]; rfl, ?_, ?_⟩
        · intro j w hj
          rw [← hv]
          cases j with
          | zero =>
            simp only [List.get?_cons_zero, Option.some.injEq] at hj
            exact le_of_eq hj
          | succ n =>
            simp only [List.get?_cons_succ] at hj
            exact le_trans hc (hle n w hj)
        · intro j w hjlt hjw
          rw [← hi] at hjlt
          exact absurd hjlt (Nat.not_lt_zero j)
      · rw [if_neg hc] at h2
        simp only [Option.some.injEq, Prod.mk.injEq] at h2
        obtain ⟨hi, hv⟩ := h2
        push_neg at hc
        refine ⟨?_, ?_, ?_⟩
        · rw [← hi, ← hv]
          simpa using hg
        · intro j w hj
          rw [← hv]
          cases j with
          | zero =>
            simp only [List.get?_cons_zero, Option.some.injEq] at hj
            exact le_of_lt (lt_of_lt_of_le hc (le_of_eq hj))
          | succ n =>
            simp only [List.get?_cons_succ] at hj
            exact hle n w hj
        · intro j w hjlt hjw
          rw [← hv]
          cases j with
          | zero =>
            simp only [List.get?_cons_zero, Option.some.injEq] at hjw
            exact lt_of_lt_of_le hc (le_of_eq hjw)
          | succ n =>
            simp only [List.get?_cons_succ] at hjw
            refine hlt n w ?_ hjw
            omega
 
theorem d2row_nonneg (tc bs stemp atemp : ℚ) (r : Row) :
    0 ≤ d2row tc bs stemp atemp r := by
  unfold d2row
  positivity

/-- The query's four input fields coincide with a row's four input
fields. -/
def inputsMatch (tc bs stemp atemp : ℚ) (r : Row) : Prop :=
  r.ThermalCond = tc ∧ r.BlockSize = bs ∧ r.SourceTemp = stemp ∧ r.AmbientTemp = atemp

instance (tc bs stemp atemp : ℚ) (r : Row) :
    Decidable (inputsMatch tc bs stemp atemp r) := by
  unfold inputsMatch
  infer_instance

theorem d2row_eq_zero_iff (tc bs stemp atemp : ℚ) (r : Row) :
    d2row tc bs stemp atemp r = 0 ↔ inputsMatch tc bs stemp atemp r := by
  constructor
  · intro h
    unfold d2row at h
    have h1 := sq_nonneg (r.ThermalCond - tc)
    have h2 := sq_nonneg (r.BlockSize - bs)
    have h3 := sq_nonneg (r.SourceTemp - stemp)
    have h4 := sq_nonneg (r.AmbientTemp - atemp)
    have e1 : (r.ThermalCond - tc)^2 = 0 := by linarith
    have e2 : (r.BlockSize - bs)^2 = 0 := by linarith
    have e3 : (r.SourceTemp - stemp)^2 = 0 := by linarith
    have e4 : (r.AmbientTemp - atemp)^2 = 0 := by linarith
    exact ⟨sub_eq_zero.mp (sq_eq_zero_iff.mp e1), sub_eq_zero.mp (sq_eq_zero_iff.mp e2),
      sub_eq_zero.mp (sq_eq_zero_iff.mp e3), sub_eq_zero.mp (sq_eq_zero_iff.mp e4)⟩
  · rintro ⟨h1, h2, h3, h4⟩
    simp [d2row, h1, h2, h3, h4]

theorem nearest_row_predict_spec (df : List Row) (tc bs stemp atemp : ℚ)
    (h : df ≠ []) :
    ∃ i r, df.get? i = some r ∧
      nearest_row_predict df tc bs stemp atemp = .ok (r.AvgTemp, r.MaxTemp, r.CenterTemp) ∧
      (∀ j s, df.get? j = some s →
        d2row tc bs stemp atemp r ≤ d2row tc bs stemp atemp s) ∧
      (∀ j s, j < i → df.get? j = some s →
        d2row tc bs stemp atemp r < d2row tc bs stemp atemp s) := by
  cases hidx : idxminAux (df.map (d2row tc bs stemp atemp)) with
  | none =>
    exfalso
    have := (idxminAux_eq_none_iff _).mp hidx
    exact h (List.map_eq_nil.mp this)
  | some p =>
    obtain ⟨i, v⟩ := p
    obtain ⟨hg, hle, hlt⟩ := idxminAux_spec _ i v hidx
    rw [List.get?_map] at hg
    obtain ⟨r, hr, hrv⟩ := Option.map_eq_some'.mp hg
    refine ⟨i, r, hr, ?_, ?_, ?_⟩
    · simp only [nearest_row_predict, hidx, hr]
    · intro j s hj
      have : (df.map (d2row tc bs stemp atemp)).get? j =
          some (d2row tc bs stemp atemp s) := by
        rw [List.get?_map, hj]
        rfl
      have := hle j _ this
      rw [hrv]
      exact this
    · intro j s hji hj
      have : (df.map (d2row tc bs stemp atemp)).get? j =
          some (d2row tc bs stemp atemp s) := by
        rw [List.get?_map, hj]
        rfl
      have := hlt j _ hji this
      rw [hrv]
      exact this

theorem nearest_row_predict_first_match (df : List Row) (tc bs stemp atemp : ℚ)
    (i : ℕ) (r : Row) (hi : df.get? i = some r)
    (hm : inputsMatch tc bs stemp atemp r)
    (hfirst : ∀ j s, j < i → df.get? j = some s → ¬ inputsMatch tc bs stemp atemp s) :
    nearest_row_predict df tc bs stemp atemp = .ok (r.AvgTemp, r.MaxTemp, r.CenterTemp) := by
  have hne : df ≠ [] := by
    intro hnil
    rw [hnil] at hi
    simp at hi
  obtain ⟨i₀, r₀, hi₀, hres, hle, hlt⟩ := nearest_row_predict_spec df tc bs stemp atemp hne
  have hr0 : d2row tc bs stemp atemp r = 0 := (d2row_eq_zero_iff tc bs stemp atemp r).mpr hm
  have hmin0 : d2row tc bs stemp atemp r₀ = 0 := by
    have hub := hle i r hi
    have hnn := d2row_nonneg tc bs stemp atemp r₀
    rw [hr0] at hub
    linarith
  have hii : i₀ = i := by
    rcases lt_trichotomy i₀ i with hcase | hcase | hcase
    · exfalso
      exact hfirst i₀ r₀ hcase hi₀ ((d2row_eq_zero_iff tc bs stemp atemp r₀).mp hmin0)
    · exact hcase
    · exfalso
      have := hlt i r hcase hi
      rw [hr0, hmin0] at this
      exact lt_irrefl 0 this
  rw [hii] at hi₀
  rw [hi] at hi₀
  obtain rfl : r = r₀ := by
    simpa using hi₀
  exact hres

theorem resultsBlock_nameError (df : List Row) (tc bs stemp atemp a m c : ℚ)
    (h : nearest_row_predict df tc bs stemp atemp = .ok (a, m, c)) :
    resultsBlock df tc bs stemp atemp = .error "NameError: name avg_temp is not defined" := by
  simp only [resultsBlock, h]
  rfl

/-- Two dataset rows with identical input fields but different outputs;
also reused as concrete dataset rows in witnesses. -/
def rowA : Row := ⟨100, 10, 60, 25, 40, 90, 55⟩

/-- Second row with the same four inputs as `rowA` but different
outputs. -/
def rowB : Row := ⟨100, 10, 60, 25, 50, 95, 60⟩

/-! ## Claim theorems -/

/-- C1: for every non-empty dataset and every query, `nearest_row_predict`
returns verbatim the `AvgTemp`, `MaxTemp`, `CenterTemp` of a row whose
unweighted squared Euclidean distance to the query (over the four input
fields) is a minimum over the whole dataset, and which is the FIRST such
row in dataset iteration order (every strictly earlier row has strictly
larger distance); being a pure function of query and dataset, the result
is deterministic. -/
theorem c1_predict_first_argmin (df : List Row) (tc bs stemp atemp : ℚ)
    (h : df ≠ []) :
    ∃ i r, df.get? i = some r ∧
      nearest_row_predict df tc bs stemp atemp = .ok (r.AvgTemp, r.MaxTemp, r.CenterTemp) ∧
      (∀ j s, df.get? j = some s →
        d2row tc bs stemp atemp r ≤ d2row tc bs stemp atemp s) ∧
      (∀ j s, j < i → df.get? j = some s →
        d2row tc bs stemp atemp r < d2row tc bs stemp atemp s) :=
  nearest_row_predict_spec df tc bs stemp atemp h

theorem c1_witness :
    ([rowA, rowB] ≠ []) ∧
    (∃ i r, List.get? [rowA, rowB] i = some r ∧
      nearest_row_predict [rowA, rowB] 100 10 60 25 = .ok (r.AvgTemp, r.MaxTemp, r.CenterTemp) ∧
      (∀ j s, List.get? [rowA, rowB] j = some s →
        d2row 100 10 60 25 r ≤ d2row 100 10 60 25 s) ∧
      (∀ j s, j < i → List.get? [rowA, rowB] j = some s →
        d2row 100 10 60 25 r < d2row 100 10 60 25 s)) :=
  ⟨by simp, c1_predict_first_argmin [rowA, rowB] 100 10 60 25 (by simp)⟩

/-- C2 counterexample: the claim quantifies over EVERY non-empty dataset
and every row the query matches exactly, but when two rows carry the same
four inputs and different outputs, a query matching the second row
returns the first row's outputs, not the second's: here the dataset
`[rowA, rowB]` has `rowB` at index 1 exactly matching the query
(100, 10, 60, 25), yet the prediction is not `rowB`'s outputs. -/
theorem c2_counterexample :
    List.get? [rowA, rowB] 1 = some rowB ∧
    inputsMatch 100 10 60 25 rowB ∧
    nearest_row_predict [rowA, rowB] 100 10 60 25 ≠
      .ok (rowB.AvgTemp, rowB.MaxTemp, rowB.CenterTemp) := by
  refine ⟨rfl, by norm_num [inputsMatch, rowB], ?_⟩
  have hev : nearest_row_predict [rowA, rowB] 100 10 60 25 = .ok (40, 90, 55) := by
    norm_num [nearest_row_predict, idxminAux, d2row, rowA, rowB, List.get?]
  rw [hev]
  norm_num [rowB]

/-- C2 (amended): for every non-empty dataset and every query whose four
input fields exactly equal the four input fields of some dataset row,
`nearest_row_predict` returns the three outputs of the FIRST such row in
dataset iteration order (in particular, of the row itself whenever no
earlier row also matches, e.g. when the match is unique). -/
theorem c2_predict_exact_match (df : List Row) (tc bs stemp atemp : ℚ)
    (i : ℕ) (r : Row) (hi : df.get? i = some r)
    (hm : inputsMatch tc bs stemp atemp r)
    (hfirst : ∀ j s, j < i → df.get? j = some s → ¬ inputsMatch tc bs stemp atemp s) :
    nearest_row_predict df tc bs stemp atemp = .ok (r.AvgTemp, r.MaxTemp, r.CenterTemp) :=
  nearest_row_predict_first_match df tc bs stemp atemp i r hi hm hfirst

theorem c2_witness :
    List.get? [rowA] 0 = some rowA ∧
    inputsMatch 100 10 60 25 rowA ∧
    nearest_row_predict [rowA] 100 10 60 25 = .ok (rowA.AvgTemp, rowA.MaxTemp, rowA.CenterTemp) :=
  ⟨rfl, by norm_num [inputsMatch, rowA],
    c2_predict_exact_match [rowA] 100 10 60 25 0 rowA rfl
      (by norm_num [inputsMatch, rowA])
      (fun j s hj _ => absurd hj (Nat.not_lt_zero j))⟩

/-- C3 (code bug): with all four inputs inside their configured ranges
(`check_limits` returns no issues) and a non-empty dataset, the Calculate
results block does NOT complete: line 228 evaluates
`coolant_suggestion(avg_temp)` but no variable `avg_temp` is ever bound
(the prediction binds `avg_t`), so the block raises a NameError instead
of displaying any coolant suggestion. -/
theorem c3_calculate_namerror :
    check_limits (values 100 10 60 25) = [] ∧
    resultsBlock [rowA] 100 10 60 25 =
      .error "NameError: name avg_temp is not defined" :=
  ⟨by norm_num +decide [check_limits, values, LIMITS, List.lookup],
    resultsBlock_nameError [rowA] 100 10 60 25 40 90 55
      (by norm_num [nearest_row_predict, idxminAux, d2row, rowA, List.get?])⟩

/-- C4 counterexample: on an empty dataset the prediction does fail, but
with pandas' generic ValueError from `idxmin` on an empty sequence; no
`EmptyDatasetError` exists anywhere in the code, so the error raised is
not that specific error. -/
theorem c4_counterexample :
    nearest_row_predict [] 100 10 60 25 =
      .error "ValueError: attempt to get argmin of an empty sequence" ∧
    "ValueError: attempt to get argmin of an empty sequence" ≠ "EmptyDatasetError" :=
  ⟨rfl, by decide⟩

/-- C4 (amended): for every query, `nearest_row_predict` applied to a
dataset with zero rows fails — no prediction is ever produced — but the
failure is the generic pandas ValueError raised by `idxmin` on an empty
sequence, not a dedicated `EmptyDatasetError`. -/
theorem c4_empty_dataset_fails (tc bs stemp atemp : ℚ) :
    nearest_row_predict [] tc bs stemp atemp =
      .error "ValueError: attempt to get argmin of an empty sequence" := rfl

/-- C5: `efficiency` implements `(maxTemp − avgTemp) / (maxTemp −
ambientTemp)` whenever `maxTemp ≠ ambientTemp`, and returns exactly `0`
when `maxTemp = ambientTemp`; being a total function into `ℚ` it never
produces NaN, infinity, or an error. -/
theorem c5_efficiency_total (max_temp avg_temp ambient_temp : ℚ) :
    (max_temp ≠ ambient_temp →
      efficiency max_temp avg_temp ambient_temp =
        (max_temp - avg_temp) / (max_temp - ambient_temp)) ∧
    (max_temp = ambient_temp → efficiency max_temp avg_temp ambient_temp = 0) := by
  constructor
  · intro h
    simp only [efficiency]
    rw [if_neg (sub_ne_zero.mpr h)]
  · intro h
    subst h
    simp [efficiency]

theorem c5_witness :
    ((50 : ℚ) = 50 ∧ efficiency 50 30 50 = 0) ∧
    ((100 : ℚ) ≠ 20 ∧ efficiency 100 50 20 = (100 - 50) / (100 - 20)) :=
  ⟨⟨rfl, (c5_efficiency_total 50 30 50).2 rfl⟩,
    ⟨by norm_num, (c5_efficiency_total 100 50 20).1 (by norm_num)⟩⟩

theorem ite_singleton_eq_nil_iff (p : Prop) [Decidable p] (x : String) :
    ((if p then [x] else []) = ([] : List String)) ↔ ¬p := by
  split_ifs with h <;> simp [h]

/-- C6: `check_limits` on the `values` dict produces exactly the
spec-mandated messages — one `"<field> should be between <min> and
<max>"` per field strictly outside its inclusive range, in the fixed
enumeration order ThermalCond, BlockSize, SourceTemp, AmbientTemp — and
returns the empty list exactly when every field is inside its range,
boundary values included. -/
theorem c6_check_limits_spec (tc bs stemp atemp : ℚ) :
    check_limits (values tc bs stemp atemp) = validateSpec tc bs stemp atemp ∧
    (check_limits (values tc bs stemp atemp) = [] ↔
      (50 ≤ tc ∧ tc ≤ 500) ∧ (5 ≤ bs ∧ bs ≤ 50) ∧ (30 ≤ stemp ∧ stemp ≤ 150) ∧
        (0 ≤ atemp ∧ atemp ≤ 50)) := by
  have l1 : ((values tc bs stemp atemp).lookup "ThermalCond").getD 0 = tc := rfl
  have l2 : ((values tc bs stemp atemp).lookup "BlockSize").getD 0 = bs := rfl
  have l3 : ((values tc bs stemp atemp).lookup "SourceTemp").getD 0 = stemp := rfl
  have l4 : ((values tc bs stemp atemp).lookup "AmbientTemp").getD 0 = atemp := rfl
  have t0 : toString (0 : ℤ) = "0" := rfl
  have t5 : toString (5 : ℤ) = "5" := rfl
  have t30 : toString (30 : ℤ) = "30" := rfl
  have t50 : toString (50 : ℤ) = "50" := rfl
  have t150 : toString (150 : ℤ) = "150" := rfl
  have t500 : toString (500 : ℤ) = "500" := rfl
  have hmain : check_limits (values tc bs stemp atemp) = validateSpec tc bs stemp atemp := by
    simp only [check_limits, LIMITS, List.foldl_cons, List.foldl_nil,
      l1, l2, l3, l4, validateSpec, Int.cast_ofNat, Int.cast_zero, not_and_or, not_le]
    by_cases h1 : tc < 50 ∨ 500 < tc <;> by_cases h2 : bs < 5 ∨ 50 < bs <;>
      by_cases h3 : stemp < 30 ∨ 150 < stemp <;> by_cases h4 : atemp < 0 ∨ 50 < atemp <;>
      (simp [h1, h2, h3, h4]
       try (and_intros <;> rfl))
  refine ⟨hmain, ?_⟩
  rw [hmain]
  simp only [validateSpec, List.append_eq_nil, ite_singleton_eq_nil_iff, not_or, not_lt]
  tauto

/-- C7: `coolant_suggestion` returns "Liquid Nitrogen" exactly above 80,
"Water Cooling" exactly on (60, 80], "Oil Cooling" exactly on (40, 60],
and "Air Cooling" exactly at or below 40; values at a threshold fall to
the lower tier, so `coolant_suggestion 80 = "Water Cooling"` and
`coolant_suggestion 40 = "Air Cooling"`. -/
theorem c7_coolant_ladder :
    (∀ t : ℚ,
      (coolant_suggestion t = "Liquid Nitrogen" ↔ 80 < t) ∧
      (coolant_suggestion t = "Water Cooling" ↔ 60 < t ∧ t ≤ 80) ∧
      (coolant_suggestion t = "Oil Cooling" ↔ 40 < t ∧ t ≤ 60) ∧
      (coolant_suggestion t = "Air Cooling" ↔ t ≤ 40)) ∧
    coolant_suggestion 80 = "Water Cooling" ∧
    coolant_suggestion 40 = "Air Cooling" := by
  refine ⟨fun t => ?_, by norm_num [coolant_suggestion], by norm_num [coolant_suggestion]⟩
  unfold coolant_suggestion
  split_ifs with h1 h2 h3 <;>
    refine ⟨?_, ?_, ?_, ?_⟩ <;> constructor <;> intro hh <;>
      first
        | rfl
        | exact absurd hh (by decide)
        | (try push_neg at h1
           try push_neg at h2
           try push_neg at h3
           try rcases hh with ⟨hh1, hh2⟩
           first
             | linarith
             | (constructor <;> linarith)
             | (exfalso; linarith))

/-- C8: `material_suggestion` returns "Copper" exactly above 300,
"Aluminium" exactly on (150, 300], "Steel" exactly on (80, 150], and
"Ceramic" exactly at or below 80; in particular
`material_suggestion 300 = "Aluminium"`. -/
theorem c8_material_ladder :
    (∀ tc : ℚ,
      (material_suggestion tc = "Copper" ↔ 300 < tc) ∧
      (material_suggestion tc = "Aluminium" ↔ 150 < tc ∧ tc ≤ 300) ∧
      (material_suggestion tc = "Steel" ↔ 80 < tc ∧ tc ≤ 150) ∧
      (material_suggestion tc = "Ceramic" ↔ tc ≤ 80)) ∧
    material_suggestion 300 = "Aluminium" := by
  refine ⟨fun tc => ?_, by norm_num [material_suggestion]⟩
  unfold material_suggestion
  split_ifs with h1 h2 h3 <;>
    refine ⟨?_, ?_, ?_, ?_⟩ <;> constructor <;> intro hh <;>
      first
        | rfl
        | exact absurd hh (by decide)
        | (try push_neg at h1
           try push_neg at h2
           try push_neg at h3
           try rcases hh with ⟨hh1, hh2⟩
           first
             | linarith
             | (constructor <;> linarith)
             | (exfalso; linarith))

/-- C9 counterexample: a live provider reading of exactly `0` for
field1 IS a numeric reading, yet Python truthiness makes
`fetch_live_data` discard both readings, so the effective ambient value
is the manual slider value (here 25), not the clamped live reading
`max 0 (min 50 0) = 0`. -/
theorem c9_counterexample :
    fetch_live_data (.ok ⟨some (.num 0), some (.str "65.0")⟩) = (none, none) ∧
    effectiveAtemp (fetch_live_data (.ok ⟨some (.num 0), some (.str "65.0")⟩)).1 25 = 25 ∧
    (25 : ℚ) ≠ max 0 (min 50 0) := by
  have h : fetch_live_data (.ok ⟨some (.num 0), some (.str "65.0")⟩) = (none, none) := by
    norm_num [fetch_live_data, truthy]
  refine ⟨h, ?_, by norm_num⟩
  rw [h]
  rfl

/-- C9 (amended): whenever the live provider response carries TRUTHY
values in both fields (present, non-null, not the empty string, not the
number zero) that `float()` accepts, the effective ambient and source
values used for the calculation equal the live readings clamped into
[0, 50] and [30, 150] respectively — below-minimum readings become the
minimum, above-maximum become the maximum, in-range pass through
(`max lo (min hi x)`). -/
theorem c9_live_clamp (f1 f2 : JsonVal) (fa fs slider_a slider_s : ℚ)
    (h1 : truthy (some f1) = true) (h2 : truthy (some f2) = true)
    (hfa : pyFloat f1 = some fa) (hfs : pyFloat f2 = some fs) :
    effectiveAtemp (fetch_live_data (.ok ⟨some f1, some f2⟩)).1 slider_a =
      max 0 (min 50 fa) ∧
    effectiveStemp (fetch_live_data (.ok ⟨some f1, some f2⟩)).2 slider_s =
      max 30 (min 150 fs) := by
  have hfetch : fetch_live_data (.ok ⟨some f1, some f2⟩) = (some fa, some fs) := by
    simp only [fetch_live_data, h1, h2, Bool.and_self, if_true, hfa, hfs]
  rw [hfetch]
  exact ⟨rfl, rfl⟩

theorem c9_witness :
    (truthy (some (.str "22.5")) = true ∧ truthy (some (.str "65.0")) = true ∧
      pyFloat (.str "22.5") = some (45 / 2) ∧ pyFloat (.str "65.0") = some 65) ∧
    effectiveAtemp (fetch_live_data (.ok ⟨some (.str "22.5"), some (.str "65.0")⟩)).1 25 =
      max 0 (min 50 (45 / 2)) ∧
    effectiveStemp (fetch_live_data (.ok ⟨some (.str "22.5"), some (.str "65.0")⟩)).2 60 =
      max 30 (min 150 65) :=
  have p1 : pyFloat (.str "22.5") = some (45 / 2) := by
    norm_num [pyFloat, floatOfString,
      show parseDecimal "22.5" = some (false, 22, 5, 1) from by decide]
  have p2 : pyFloat (.str "65.0") = some 65 := by
    norm_num [pyFloat, floatOfString,
      show parseDecimal "65.0" = some (false, 65, 0, 1) from by decide]
  ⟨⟨rfl, rfl, p1, p2⟩,
    c9_live_clamp (.str "22.5") (.str "65.0") (45 / 2) 65 25 60 rfl rfl p1 p2⟩

/-- C10 (implicit): `fetch_live_data` returns a pair of floats only when
both `field1` and `field2` are present and truthy; if either field is
absent or null (`none`), the empty string, or the number 0, it returns
`(None, None)`, discarding both readings — so a valid reading in one
field is dropped whenever the other is unavailable, and an ambient
reading of exactly 0 (the JSON number, not the string "0") is treated as
missing live data and replaced by the manual fallback value. -/
theorem c10_fetch_truthiness :
    (∀ resp fa fs, fetch_live_data resp = (some fa, some fs) →
      ∃ d, resp = .ok d ∧ truthy d.field1 = true ∧ truthy d.field2 = true ∧
        d.field1 ≠ none ∧ d.field2 ≠ none) ∧
    (∀ d : Feed,
      (d.field1 = none ∨ d.field1 = some (.str "") ∨ d.field1 = some (.num 0) ∨
       d.field2 = none ∨ d.field2 = some (.str "") ∨ d.field2 = some (.num 0)) →
      fetch_live_data (.ok d) = (none, none)) ∧
    (∀ d : Feed, ∀ slider : ℚ, d.field1 = some (.num 0) →
      effectiveAtemp (fetch_live_data (.ok d)).1 slider = slider) := by
  have hfalsy : ∀ d : Feed,
      (d.field1 = none ∨ d.field1 = some (.str "") ∨ d.field1 = some (.num 0) ∨
       d.field2 = none ∨ d.field2 = some (.str "") ∨ d.field2 = some (.num 0)) →
      fetch_live_data (.ok d) = (none, none) := by
    intro d hd
    have : truthy d.field1 = false ∨ truthy d.field2 = false := by
      rcases hd with h | h | h | h | h | h <;> [left; left; left; right; right; right] <;>
        simp [h, truthy] <;> rfl
    simp only [fetch_live_data]
    rcases this with h | h <;> simp [h]
  refine ⟨?_, hfalsy, ?_⟩
  · intro resp fa fs hres
    cases resp with
    | error e => simp [fetch_live_data] at hres
    | ok d =>
      refine ⟨d, rfl, ?_⟩
      by_cases h1 : truthy d.field1
      · by_cases h2 : truthy d.field2
        · refine ⟨h1, h2, ?_, ?_⟩
          · intro hn
            rw [hn] at h1
            simp [truthy] at h1
          · intro hn
            rw [hn] at h2
            simp [truthy] at h2
        · exfalso
          simp [fetch_live_data, h1, h2] at hres
      · exfalso
        simp [fetch_live_data, h1] at hres
  · intro d slider h
    rw [hfalsy d (Or.inr (Or.inr (Or.inl h)))]
    rfl

theorem c10_witness :
    (fetch_live_data (.ok ⟨some (.str "22.5"), some (.str "65.0")⟩) =
        (some (45 / 2), some 65) ∧
      ∃ d, (.ok d : Except String Feed) = .ok ⟨some (.str "22.5"), some (.str "65.0")⟩ ∧
        truthy d.field1 = true ∧ truthy d.field2 = true ∧
        d.field1 ≠ none ∧ d.field2 ≠ none) ∧
    ((⟨some (.num 0), some (.str "65.0")⟩ : Feed).field1 = some (.num 0) ∧
      fetch_live_data (.ok (⟨some (.num 0), some (.str "65.0")⟩ : Feed)) = (none, none)) ∧
    ((⟨some (.num 0), some (.str "65.0")⟩ : Feed).field1 = some (.num 0) ∧
      effectiveAtemp (fetch_live_data (.ok (⟨some (.num 0), some (.str "65.0")⟩ : Feed))).1 25 = 25) :=
  have p1 : pyFloat (JsonVal.str "22.5") = some (45 / 2) := by
    norm_num [pyFloat, floatOfString,
      show parseDecimal "22.5" = some (false, 22, 5, 1) from by decide]
  have p2 : pyFloat (JsonVal.str "65.0") = some 65 := by
    norm_num [pyFloat, floatOfString,
      show parseDecimal "65.0" = some (false, 65, 0, 1) from by decide]
  have hpair : fetch_live_data (.ok ⟨some (.str "22.5"), some (.str "65.0")⟩) =
      (some (45 / 2), some 65) := by
    simp only [fetch_live_data,
      show truthy (some (JsonVal.str "22.5")) = true from rfl,
      show truthy (some (JsonVal.str "65.0")) = true from rfl,
      Bool.and_self, if_true, p1, p2]
  ⟨⟨hpair, by
      obtain ⟨d, hd, rest⟩ := c10_fetch_truthiness.1
        (.ok ⟨some (.str "22.5"), some (.str "65.0")⟩) (45 / 2) 65 hpair
      exact ⟨d, hd.symm, rest⟩⟩,
    ⟨rfl, c10_fetch_truthiness.2.1 ⟨some (.num 0), some (.str "65.0")⟩
      (Or.inr (Or.inr (Or.inl rfl)))⟩,
    ⟨rfl, c10_fetch_truthiness.2.2 ⟨some (.num 0), some (.str "65.0")⟩ 25 rfl⟩⟩

end HeatTransferApp
